import Mathlib

/-!
Verification of the social-scraper harvesting core (`src/social_scrapers`).

The development shallowly embeds the Python normalizers, dedup loops,
retry wrappers and scroll loops of the TikTok and Instagram scrapers.
Python runtime values that the code actually distinguishes (None, float
NaN, float Infinity, strings, ints) are modelled by `PyVal`; dictionaries
and pandas rows by association lists (`Row`); Python truthiness and
`pd.isna` by explicit predicates.  Machine floats only ever appear in the
sources as the special values NaN/Infinity (counters are JSON integers),
so `PyVal` carries those two specials and exact integers / rationals.
-/

namespace SeoAgency

/-- A Python runtime value as distinguished by the scraper code:
`None`, float `nan`, float `inf`, a string, or an int.  Counter fields in
the JSON payloads are ints; pandas introduces `nan` for cells that are
missing in a tabular batch. -/
inductive PyVal where
  | none
  | nan
  | inf
  | str (s : String)
  | int (n : Int)
  deriving DecidableEq, Repr

/-- Python truthiness: `None` is falsy, `nan`/`inf` are truthy (nonzero
floats), `""` and `0` are falsy. -/
def PyVal.truthy : PyVal → Bool
  | .none => false
  | .nan => true
  | .inf => true
  | .str s => s ≠ ""
  | .int n => n ≠ 0

/-- Embedding of `pd.isna`: true on `None` and `nan`, false otherwise (in particular
false on `inf`). -/
def PyVal.isna : PyVal → Bool
  | .none => true
  | .nan => true
  | _ => false

/-- Python `a or b`: the first operand when truthy, otherwise the second. -/
def pyOr (a b : PyVal) : PyVal := if a.truthy then a else b

/-- Python `str(v)` on the modelled values. -/
def PyVal.pyStr : PyVal → String
  | .none => "None"
  | .nan => "nan"
  | .inf => "inf"
  | .str s => s
  | .int n => toString n

/-- A Python dict / pandas row: an association list from field names to
values.  `get` returns the first binding, or `PyVal.none` for an absent
key, matching `dict.get(k)` / `Series.get(k)`. -/
def Row := List (String × PyVal)

instance : DecidableEq Row := inferInstanceAs (DecidableEq (List (String × PyVal)))

/-- Embedding of `row.get(k)` with default `None`. -/
def Row.get (r : Row) (k : String) : PyVal :=
  match List.find? (fun p => p.1 = k) r with
  | Option.some p => p.2
  | Option.none => PyVal.none

/-- Embedding of `row.get(k, d)` with an explicit default. -/
def Row.getD (r : Row) (k : String) (d : PyVal) : PyVal :=
  match List.find? (fun p => p.1 = k) r with
  | Option.some p => p.2
  | Option.none => d

/-- Python string slicing `s[:n]` (by characters / code points). -/
def strTake (s : String) (n : Nat) : String := String.mk (s.data.take n)

/-- ASCII lower-casing of one character (`str.lower` restricted to the
ASCII letters that appear in the modelled comparisons). -/
def lowerChar (c : Char) : Char :=
  if 'A' ≤ c ∧ c ≤ 'Z' then Char.ofNat (c.toNat + 32) else c

/-- Embedding of `s.lower()` (ASCII). -/
def strLower (s : String) : String := String.mk (s.data.map lowerChar)

/-!
## Instagram record normalizer
(`instagram_standalone.py`, `instagram_scraper.py`)
-/

/-- Embedding of `safe_int` from `normalize_profile_data` / `normalize_and_insert_posts`
(default 0): `pd.isna`/None map to the default, float NaN/Infinity map to
the default, `int(...)` failures map to the default. -/
def safe_int (v : PyVal) : Int :=
  match v with
  | .none => 0
  | .nan => 0
  | .inf => 0
  | .int n => n
  | .str s =>
    match s.toInt? with
    | Option.some n => n
    | Option.none => 0

/-- Embedding of `safe_str` (explicit default): `pd.isna`/None map to the default,
anything else to `str(value)`. -/
def safe_str (v : PyVal) (d : String) : String :=
  if v.isna then d else v.pyStr

/-- The character class of the hashtag pattern `#[\w\u0080-￿]+`:
ASCII word characters (`\w`) or any character in U+0080..U+FFFF.  The
development restricts `\w` to its ASCII part; every non-ASCII character
up to U+FFFF is covered by the explicit range of the pattern itself
(characters above U+FFFF are treated as non-word). -/
def isHashtagChar (c : Char) : Bool :=
  c.isAlphanum || c = '_' || (0x80 ≤ c.toNat && c.toNat ≤ 0xFFFF)

/-- The character class of the mention pattern `@[\w\.]+` (ASCII `\w`
plus the literal dot; Instagram usernames are ASCII). -/
def isMentionChar (c : Char) : Bool :=
  c.isAlphanum || c = '_' || c = '.'

/-- Worker of `scanTokens`: structural recursion on a fuel bounded by
the input length (each step consumes at least the head character). -/
def scanTokensGo (isTok : Char → Bool) (lead : Char) : Nat → List Char → List String
  | 0, _ => []
  | _ + 1, [] => []
  | fuel + 1, c :: rest =>
    if c = lead then
      let tok := rest.takeWhile isTok
      if tok.isEmpty then scanTokensGo isTok lead fuel rest
      else String.mk (c :: tok) :: scanTokensGo isTok lead fuel (rest.drop tok.length)
    else scanTokensGo isTok lead fuel rest

/-- Embedding of `re.findall` for a pattern `lead[class]+`: scan left to right, at a
`lead` character greedily take the longest nonempty run of class
characters, emit `lead ++ run`, and resume after the match. -/
def scanTokens (isTok : Char → Bool) (lead : Char) (l : List Char) : List String :=
  scanTokensGo isTok lead l.length l

/-- Worker of `pyReplace` (fuel bounded by the input length). -/
def replaceGo (pat rep : List Char) : Nat → List Char → List Char
  | 0, l => l
  | _ + 1, [] => []
  | fuel + 1, c :: rest =>
    if pat.isPrefixOf (c :: rest) then
      rep ++ replaceGo pat rep fuel ((c :: rest).drop pat.length)
    else c :: replaceGo pat rep fuel rest

/-- Python `s.replace(pat, rep)` for a nonempty pattern (the only use in
the sources), replacing every non-overlapping occurrence left to right. -/
def pyReplace (s pat rep : String) : String :=
  if pat.data.isEmpty then s
  else String.mk (replaceGo pat.data rep.data s.data.length s.data)

/-- Embedding of `_extract_hashtags`: empty/absent text gives `[]`; otherwise
`list(set(re.findall(pattern, text)))[:30]`.  Python's `set` iteration
order is unspecified; the model fixes one concrete order (`List.dedup`)
and only order-independent consequences are asserted about it. -/
def extractHashtags (text : String) : List String :=
  if text = "" then []
  else ((scanTokens isHashtagChar '#' text.data).dedup).take 30

/-- Embedding of `_extract_mentions`: same shape with the `@[\w\.]+` pattern. -/
def extractMentions (text : String) : List String :=
  if text = "" then []
  else ((scanTokens isMentionChar '@' text.data).dedup).take 30

/-- The `valid_types` list of the post-type check. -/
def validTypes : List String :=
  ["Image", "Video", "Sidecar", "Carousel", "GraphImage", "GraphVideo", "GraphSidecar"]

/-- The post-type guard of `normalize_profile_data`:
`post_type = row.get('type','')`; a truthy value must match one of
`valid_types` case-insensitively or the row is skipped; a non-string
value raises inside the row's `try` and the row is skipped. -/
def postTypeCheck (r : Row) : Option String :=
  match r.getD "type" (.str "") with
  | .str t =>
    if t = "" then Option.some ""
    else if validTypes.any (fun v => strLower v = strLower t) then Option.some t
    else Option.none
  | _ => Option.none

/-- The identifier fallback chain
`row.get('id') or row.get('pk') or row.get('shortCode') or row.get('code')`. -/
def resolvePostId (r : Row) : PyVal :=
  pyOr (r.get "id") (pyOr (r.get "pk") (pyOr (r.get "shortCode") (r.get "code")))

/-- The claim-side resolution, modelled from the spec's words: the first
of `id`, `pk`, `shortCode`, `code` that is present and non-empty (the
spec treats NaN, like a missing value, as not usable), or `none` when
all four are absent or empty. -/
def specFirstNonEmptyId (r : Row) : Option PyVal :=
  List.find? (fun v => v.truthy && !v.isna)
    [r.get "id", r.get "pk", r.get "shortCode", r.get "code"]

/-- The fields of one normalized profile post that the claims mention
(`normalize_profile_data`, instagram_standalone.py). -/
structure IgPost where
  post_id : String
  short_code : String
  caption : String
  post_type : String
  likes_count : Int
  comments_count : Int
  video_view_count : Int
  owner_username : String
  hashtags : List String
  mentions : List String
  hashtag_count : Nat
  mention_count : Nat
  deriving DecidableEq, Repr

/-- Embedding of `normalize_profile_data`, one row: type guard, identifier chain with
the `not post_id or pd.isna(post_id)` skip, `safe_str`/`safe_int`
coercions, the 2000-character caption cap, and hashtag/mention
extraction from the capped caption. -/
def normalizeProfilePost (r : Row) : Option IgPost :=
  match postTypeCheck r with
  | Option.none => Option.none
  | Option.some pt =>
    let pid := resolvePostId r
    if !pid.truthy || pid.isna then Option.none
    else
      let caption := strTake (safe_str (r.get "caption") "") 2000
      let hashtags := extractHashtags caption
      let mentions := extractMentions caption
      Option.some
        { post_id := pid.pyStr
          short_code := safe_str (pyOr (r.get "shortCode") (r.get "code")) ""
          caption := caption
          post_type := pyReplace (strLower pt) "graph" ""
          likes_count := safe_int (r.get "likesCount")
          comments_count := safe_int (r.get "commentsCount")
          video_view_count := safe_int (r.get "videoViewCount")
          owner_username := safe_str (r.get "ownerUsername") ""
          hashtags := hashtags
          mentions := mentions
          hashtag_count := hashtags.length
          mention_count := mentions.length }

/-- The stored post excerpt of `normalize_hashtag_data`
(instagram_standalone.py):
`str(row.get('caption', '')).replace('\\n', '\n')[:500]`. -/
def hashtagPostExcerpt (r : Row) : String :=
  strTake (pyReplace ((r.getD "caption" (.str "")).pyStr) "\\n" "\n") 500

/-- ASCII `str.isdigit` (nonempty, all digits). -/
def isDigitStr (s : String) : Bool :=
  s ≠ "" && s.data.all Char.isDigit

/-- The numeric post-id conversion of `normalize_and_insert_posts`
(instagram_scraper.py), reached after the truthy/not-isna guard. The
Python `hash` is run-salted, so it is a parameter.  An int id is kept; a
digit string is parsed; any other string is replaced by
`abs(hash(s)) % 10**10`; a plain float (`inf` here) makes `int(...)`
raise and the `except` branch hashes `str(row.get('shortCode', idx))`;
the remaining constructors are unreachable behind the guard and take the
`else` branch's `hash(str(idx))`. -/
def scraperPostId (hashFn : String → Nat) (r : Row) (idx : Nat) : Int :=
  match resolvePostId r with
  | .int n => n
  | .str s =>
    if isDigitStr s then ((s.toNat?).getD 0 : Int)
    else Int.ofNat (hashFn s % 10 ^ 10)
  | .inf => Int.ofNat (hashFn ((r.getD "shortCode" (.int idx)).pyStr) % 10 ^ 10)
  | _ => Int.ofNat (hashFn (toString idx) % 10 ^ 10)

/-!
## TikTok engagement arithmetic
(`tiktok_page.py`, `tiktok_query.py`, `tiktok_standalone.py`)
-/

/-- Round half to even (CPython `round` tie behavior; the sources only
round exact decimal values, so binary-float representation is not
modelled). -/
def roundHalfEven (q : ℚ) : ℤ :=
  let f := ⌊q⌋
  if q - f < 1 / 2 then f
  else if 1 / 2 < q - f then f + 1
  else if f % 2 = 0 then f else f + 1

/-- Python `round(x, 2)`. -/
def pyRound2 (q : ℚ) : ℚ := (roundHalfEven (q * 100) : ℚ) / 100

/-- Embedding of `_to_int` of tiktok_page.py: `None` stays `None`; `int(...)` failures
(NaN, Infinity, unparsable strings) give `None`. -/
def pageToInt : PyVal → Option Int
  | .none => Option.none
  | .nan => Option.none
  | .inf => Option.none
  | .int n => Option.some n
  | .str s => s.toInt?

/-- Embedding of `_to_int` of `_parse_video_from_api` (tiktok_standalone.py): same
coercion but defaulting to 0. -/
def saToInt (v : PyVal) : Int := (pageToInt v).getD 0

/-- The parts of one raw TikTok video item that the embedded code reads:
its `id` value and the nested `stats` / `statsV2` / `authorStats`
dictionaries. -/
structure TtRawItem where
  idVal : PyVal
  stats : Row
  statsV2 : Row
  authorStats : Row
  deriving DecidableEq

/-- The metric fields of one row produced by `tiktok_to_row`
(tiktok_page.py). -/
structure PageRow where
  video_id : PyVal
  follower_count : Option Int
  play_count : Option Int
  like_count : Option Int
  comment_count : Option Int
  share_count : Option Int
  repost_count : Option Int
  total_engagement : Int
  engagement_rate : Option ℚ
  deriving DecidableEq

/-- The metric part of `tiktok_to_row` (tiktok_page.py): statsV2-first
counter resolution through `_to_int`, `total_engagement` as the sum of
the four counters with `or 0` defaults, and `engagement_rate` left as
`None` unless `followers and followers > 0`. -/
def tiktok_to_row (v : TtRawItem) : PageRow :=
  let likes := pageToInt (pyOr (v.statsV2.get "diggCount") (v.stats.get "diggCount"))
  let comments := pageToInt (pyOr (v.statsV2.get "commentCount") (v.stats.get "commentCount"))
  let shares := pageToInt (pyOr (v.statsV2.get "shareCount") (v.stats.get "shareCount"))
  let reposts := pageToInt (pyOr (v.statsV2.get "collectCount") (v.stats.get "collectCount"))
  let followers := pageToInt (v.authorStats.get "followerCount")
  let total := likes.getD 0 + comments.getD 0 + shares.getD 0 + reposts.getD 0
  let rate : Option ℚ :=
    match followers with
    | Option.some f =>
      if f ≠ 0 ∧ 0 < f then Option.some (pyRound2 ((total : ℚ) / (f : ℚ) * 100))
      else Option.none
    | Option.none => Option.none
  { video_id := v.idVal
    follower_count := followers
    play_count := pageToInt (pyOr (v.statsV2.get "playCount") (v.stats.get "playCount"))
    like_count := likes
    comment_count := comments
    share_count := shares
    repost_count := reposts
    total_engagement := total
    engagement_rate := rate }

/-- Embedding of `calculate_engagement` (tiktok_query.py): `(x or 0)` sums; the call
sites pass ints or `None`. -/
def calculate_engagement (likes comments shares reposts : Option Int) : Int :=
  likes.getD 0 + comments.getD 0 + shares.getD 0 + reposts.getD 0

/-- Embedding of `calculate_engagement_rate` (tiktok_query.py): rounded percentage
when `followers and followers > 0`, else 0. -/
def calculate_engagement_rate (engagement : Int) (followers : Int) : ℚ :=
  if followers ≠ 0 ∧ 0 < followers then pyRound2 ((engagement : ℚ) / (followers : ℚ) * 100)
  else 0

/-- The `stats` sub-record produced by `_parse_video_from_api`
(tiktok_standalone.py). -/
structure SaStats where
  play_count : Int
  digg_count : Int
  comment_count : Int
  share_count : Int
  repost_count : Int
  engagement_rate : ℚ
  deriving DecidableEq

/-- The metric part of `_parse_video_from_api` (tiktok_standalone.py):
statsV2-first resolution through its `_to_int` (default 0), engagement
as the sum of the four counters, and
`engagement / views * 100 if views > 0 else 0.0` stored through
`round(-, 2)`. -/
def saParseStats (v : TtRawItem) : SaStats :=
  let likes := saToInt (pyOr (v.statsV2.get "diggCount") (v.stats.get "diggCount"))
  let comments := saToInt (pyOr (v.statsV2.get "commentCount") (v.stats.get "commentCount"))
  let shares := saToInt (pyOr (v.statsV2.get "shareCount") (v.stats.get "shareCount"))
  let reposts := saToInt (pyOr (v.statsV2.get "collectCount") (v.stats.get "collectCount"))
  let views := saToInt (pyOr (v.statsV2.get "playCount") (v.stats.get "playCount"))
  let engagement := likes + comments + shares + reposts
  let rate : ℚ := if 0 < views then (engagement : ℚ) / (views : ℚ) * 100 else 0
  { play_count := views
    digg_count := likes
    comment_count := comments
    share_count := shares
    repost_count := reposts
    engagement_rate := pyRound2 rate }

/-!
## TikTok search harvesting and dedup
(`_process_api_response` / `scrape_search_url`, tiktok_query.py)
-/

/-- One normalized video of `_extract_video_data` (tiktok_query.py);
only the metric fields the claims mention are carried. -/
structure QueryVideo where
  video_id : PyVal
  follower_count : Int
  like_count : Int
  comment_count : Int
  share_count : Int
  repost_count : Int
  play_count : Int
  total_engagement : Int
  engagement_rate : ℚ
  deriving DecidableEq

/-- Embedding of `_extract_video_data` (tiktok_query.py): counters via
`stats.get(k, 0)` / `authorStats.get('followerCount', 0)`, engagement
through the two global helpers; a non-int counter raises inside the
`try` and yields `None`. -/
def extractVideoData (it : TtRawItem) : Option QueryVideo :=
  match it.stats.getD "diggCount" (.int 0), it.stats.getD "commentCount" (.int 0),
        it.stats.getD "shareCount" (.int 0), it.stats.getD "repostCount" (.int 0),
        it.authorStats.getD "followerCount" (.int 0), it.stats.getD "playCount" (.int 0) with
  | .int likes, .int comments, .int shares, .int reposts, .int followers, .int plays =>
    let total := calculate_engagement (Option.some likes) (Option.some comments)
      (Option.some shares) (Option.some reposts)
    Option.some
      { video_id := it.idVal
        follower_count := followers
        like_count := likes
        comment_count := comments
        share_count := shares
        repost_count := reposts
        play_count := plays
        total_engagement := total
        engagement_rate := calculate_engagement_rate total followers }
  | _, _, _, _, _, _ => Option.none

/-- One entry of a response's `data` list: its `type` tag and, when the
`'item'` key is present, the (possibly null) item under it. -/
structure TtSection where
  type : Int
  item : Option (Option TtRawItem)
  deriving DecidableEq

/-- One captured API response: the `data` sections, the `itemList`
entries (possibly null), and the `has_more`/`hasMore` continuation
signal (which `_process_api_response` reads only to log it). -/
structure ApiResponse where
  sections : List TtSection
  itemList : List (Option TtRawItem)
  has_more : Bool
  deriving DecidableEq

/-- The item a `data` section contributes: present only for `type == 1`
sections carrying an `'item'` key. -/
def sectionEntry (s : TtSection) : Option TtRawItem :=
  match s.item with
  | Option.some v => if s.type = 1 then v else Option.none
  | Option.none => Option.none

/-- The sequence of candidate items one response is scanned for:
first the `type == 1` sections, then `itemList`. -/
def responseItems (r : ApiResponse) : List (Option TtRawItem) :=
  r.sections.map sectionEntry ++ r.itemList

/-- The `videos_found` collection loops of `_process_api_response`: a
non-null item whose id is not in `processed_ids` is kept and its id
added; everything else is skipped. Returns the kept items in order and
the extended seen-set. -/
def collectNew : List (Option TtRawItem) → List PyVal → List TtRawItem × List PyVal
  | [], seen => ([], seen)
  | Option.none :: rest, seen => collectNew rest seen
  | Option.some it :: rest, seen =>
    if it.idVal ∈ seen then collectNew rest seen
    else
      let p := collectNew rest (it.idVal :: seen)
      (it :: p.1, p.2)

/-- The scraper's per-run mutable state: `processed_ids` and
`videos_data`. -/
structure QState where
  processed : List PyVal
  videos : List QueryVideo
  deriving DecidableEq

/-- Embedding of `_process_api_response`: collect the fresh items of the response,
then extract and append their video data. -/
def processApiResponse (st : QState) (r : ApiResponse) : QState :=
  let p := collectNew (responseItems r) st.processed
  { processed := p.2, videos := st.videos ++ p.1.filterMap extractVideoData }

/-- Processing a sequence of captured responses from a fresh state
(both `videos_data` and `processed_ids` are reset at the start of
`scrape_search_url`). -/
def harvestResponses (rs : List ApiResponse) : QState :=
  rs.foldl processApiResponse { processed := [], videos := [] }

/-- The scroll loop of `scrape_search_url`: per scroll round the newly
captured responses are appended to `api_responses` and the whole list is
re-processed (dedup makes re-processing idempotent); the loop breaks
early once `len(videos_data) >= max_videos`.  Returns the final state
and the number of scroll rounds executed; the source runs exactly 5
rounds (`for i in range(5)`), modelled by an `arrivals` list of length
5. -/
def searchLoopGo (maxVideos : Nat) :
    List (List ApiResponse) → List ApiResponse → QState → Nat → QState × Nat
  | [], _, st, iters => (st, iters)
  | batch :: rest, soFar, st, iters =>
    let soFar2 := soFar ++ batch
    let st2 := soFar2.foldl processApiResponse st
    if maxVideos ≤ st2.videos.length then (st2, iters + 1)
    else searchLoopGo maxVideos rest soFar2 st2 (iters + 1)

/-- Embedding of `scrape_search_url`: run the scroll loop from a fresh state and
return `videos_data[:max_videos]` plus the number of scroll rounds. -/
def scrape_search_url (arrivals : List (List ApiResponse)) (maxVideos : Nat) :
    List QueryVideo × Nat :=
  let p := searchLoopGo maxVideos arrivals [] { processed := [], videos := [] } 0
  (p.1.videos.take maxVideos, p.2)

/-!
## TikTok comment transport, retry and pagination
(tiktok_comment.py, tiktok_standalone.py)
-/

/-- One comment-list API payload: `comments`, `has_more`, `cursor`
(the sources read them with `data.get(k, 0)` defaults; a comment is a
raw dict). -/
structure TtCommentData where
  comments : List Row
  has_more : Int
  cursor : Int
  deriving DecidableEq

/-- The failure taxonomy of tiktok_comment.py:
`requests.RequestException`, `TikTokHTTPError`, `TikTokJSONError`. -/
inductive TransportError where
  | requestException (msg : String)
  | httpError (status : Nat)
  | jsonError (msg : String)
  deriving DecidableEq

/-- One HTTP response as `_safe_json` inspects it: status code, whether
the content type contains `application/json`, the raw text, and the
JSON parse result (`none` = decode error). -/
structure HttpResp where
  status : Nat
  contentTypeJson : Bool
  text : String
  parsed : Option TtCommentData
  deriving DecidableEq

/-- Embedding of `_safe_json` (tiktok_comment.py): a 200 response must be nonempty
JSON that parses, otherwise a `TikTokJSONError` is raised; every non-200
status raises a `TikTokHTTPError`.  It never returns an empty success
for a failure. -/
def safeJson (resp : HttpResp) : Except TransportError TtCommentData :=
  if resp.status = 200 then
    if resp.text = "" then
      Except.error (.jsonError "Empty response - Cookie may be expired")
    else if resp.contentTypeJson then
      match resp.parsed with
      | Option.some d => Except.ok d
      | Option.none => Except.error (.jsonError "JSON decode error")
    else Except.error (.jsonError "Not JSON response")
  else Except.error (.httpError resp.status)

/-- The literal `{"comments": [], "has_more": 0}` fallback page
(`cursor` read later via `data.get("cursor", 0)`). -/
def emptyCommentPage : TtCommentData := { comments := [], has_more := 0, cursor := 0 }

/-- The body of `fetch_page` (tiktok_comment.py): one transport call
(`call` is either a raised `requests` exception or a response), passed
through `_safe_json`; the surrounding `except Exception` turns any
raised error into the `{"comments": [], "has_more": 0}` success. -/
def fetch_page (call : Except TransportError HttpResp) : Except TransportError TtCommentData :=
  match call with
  | Except.error _ => Except.ok emptyCommentPage
  | Except.ok resp =>
    match safeJson resp with
    | Except.error _ => Except.ok emptyCommentPage
    | Except.ok d => Except.ok d

/-- The body of `_fetch_comment_page` (tiktok_standalone.py): missing
base query string, any raised exception, a non-200 status, and a JSON
decode error all yield the empty success page. -/
def saFetchCommentPage (baseqs : Option String) (call : Except TransportError HttpResp) :
    Except TransportError TtCommentData :=
  match baseqs with
  | Option.none => Except.ok emptyCommentPage
  | Option.some _ =>
    match call with
    | Except.error _ => Except.ok emptyCommentPage
    | Except.ok resp =>
      if resp.status = 200 then
        match resp.parsed with
        | Option.some d => Except.ok d
        | Option.none => Except.ok emptyCommentPage
      else Except.ok emptyCommentPage

/-- Worker of `withRetry` (tenacity semantics): run attempt `k`; a
success returns immediately, an error is retried while fuel remains and
the error is of a retryable type, and otherwise reraised unchanged
(`reraise=True`).  Returns the result and the number of attempts made. -/
def retryGo (retryable : TransportError → Bool)
    (op : Nat → Except TransportError TtCommentData) :
    Nat → Nat → Except TransportError TtCommentData × Nat
  | 0, k => (op k, k + 1)
  | fuel + 1, k =>
    match op k with
    | Except.ok a => (Except.ok a, k + 1)
    | Except.error e =>
      if retryable e then retryGo retryable op fuel (k + 1)
      else (Except.error e, k + 1)

/-- Embedding of `@retry(stop=stop_after_attempt(maxAttempts), reraise=True, ...)`:
at most `maxAttempts` attempts. -/
def withRetry (retryable : TransportError → Bool) (maxAttempts : Nat)
    (op : Nat → Except TransportError TtCommentData) :
    Except TransportError TtCommentData × Nat :=
  retryGo retryable op (maxAttempts - 1) 0

/-- The retry predicate of `fetch_page`:
`retry_if_exception_type((requests.RequestException, TikTokHTTPError,
TikTokJSONError))` — every modelled error type. -/
def tiktokCommentRetryable : TransportError → Bool := fun _ => true

/-- The retry predicate of `_fetch_comment_page`:
`retry_if_exception_type((requests.RequestException,))`. -/
def saRetryable : TransportError → Bool
  | .requestException _ => true
  | _ => false

/-- Embedding of `stop_after_attempt(5)` on `fetch_page` (tiktok_comment.py). -/
def FETCH_PAGE_MAX_ATTEMPTS : Nat := 5

/-- Embedding of `stop_after_attempt(3)` on `_fetch_comment_page`
(tiktok_standalone.py). -/
def SA_FETCH_MAX_ATTEMPTS : Nat := 3

/-- The pagination loop of `scrape_comments_for_video`
(tiktok_comment.py), with the loop's decreasing budget
`maxPages - page` as the structural argument: every iteration fetches
one page (the budget-0 and budget-1 cases both fetch once, matching
`page += 1; if page >= max_pages or not has_more: break`), continues to
the page's cursor only while `has_more == 1`.  Returns
`(total_fetched, pages_fetched)`. -/
def scrapeCommentsGo (transport : Int → TtCommentData) : Nat → Int → Nat × Nat
  | 0, cursor => ((transport cursor).comments.length, 1)
  | 1, cursor => ((transport cursor).comments.length, 1)
  | n + 2, cursor =>
    let d := transport cursor
    if d.has_more = 1 then
      let p := scrapeCommentsGo transport (n + 1) d.cursor
      (d.comments.length + p.1, 1 + p.2)
    else (d.comments.length, 1)

/-- Embedding of `scrape_comments_for_video`: the loop starting at cursor 0 with the
full `max_pages` budget. -/
def scrape_comments_for_video (transport : Int → TtCommentData) (maxPages : Nat) : Nat × Nat :=
  scrapeCommentsGo transport maxPages 0

/-!
## TikTok comment normalization (`insert_comments`, tiktok_comment.py)
-/

/-- The claim-relevant fields of one row built by `insert_comments`. -/
structure TtCommentRow where
  comment_id : String
  parent_comment_id : Option PyVal
  text : PyVal
  language : PyVal
  like_count : PyVal
  reply_count : PyVal
  is_author_liked : Bool
  deriving DecidableEq

/-- One comment dict mapped to its row: in particular
`parent_comment_id` is the raw `reply_id` exactly when
`c.get("reply_id") and c.get("reply_id") != "0"`, else `None`. -/
def insertCommentRow (c : Row) : TtCommentRow :=
  let r := c.get "reply_id"
  { comment_id := (c.get "cid").pyStr
    parent_comment_id := if r.truthy ∧ r ≠ PyVal.str "0" then Option.some r else Option.none
    text := c.get "text"
    language := c.get "comment_language"
    like_count := c.getD "digg_count" (.int 0)
    reply_count := c.getD "reply_comment_total" (.int 0)
    is_author_liked := (c.get "is_author_digged").truthy }

/-!
## Scroll loops (`_scroll`, tiktok_page.py; `scrape_page`,
tiktok_standalone.py)
-/

/-- Embedding of `MAX_IDLE_STEPS` (tiktok_page.py). -/
def MAX_IDLE_STEPS : Nat := 150

/-- The state of `_scroll`: the idle counter, the previous page height,
and (for the theorems) the number of loop iterations executed. -/
structure ScrollSt where
  idle : Nat
  hPrev : Nat
  steps : Nat
  deriving DecidableEq, Repr

/-- One `_scroll` iteration under the guard
`not done.is_set() and idle < MAX_IDLE_STEPS`: observe the new height,
increment the idle counter when it is unchanged and reset it to zero
otherwise.  Once the guard fails the state is final. -/
def scrollStep (maxIdle : Nat) (s : ScrollSt) (obs : Nat × Bool) : ScrollSt :=
  if obs.2 ∨ maxIdle ≤ s.idle then s
  else
    { idle := if obs.1 = s.hPrev then s.idle + 1 else 0
      hPrev := obs.1
      steps := s.steps + 1 }

/-- Embedding of `_scroll` over a finite sequence of (height, done-signal)
observations. -/
def runScroll (maxIdle : Nat) (obs : List (Nat × Bool)) (init : ScrollSt) : ScrollSt :=
  obs.foldl (scrollStep maxIdle) init

/-- The initial `_scroll` state: idle 0, `h_prev` the first measured
height. -/
def initScroll (h0 : Nat) : ScrollSt := { idle := 0, hPrev := h0, steps := 0 }

/-- The state of the `scrape_page` scroll loop (tiktok_standalone.py):
`scroll_count`, `idle_count`, `prev_count`, and the currently observed
`len(videos_data)`. -/
structure SaScrollSt where
  scrolls : Nat
  idle : Nat
  prev : Nat
  len : Nat
  deriving DecidableEq, Repr

/-- One `scrape_page` iteration under the guard
`len(videos_data) < max_videos and scroll_count < max_scrolls and
idle_count < max_idle`: scroll, observe the new item count, increment
the idle counter when it equals `prev_count` and reset it otherwise
(the source updates `prev_count` only on change, which is equivalent
since in the idle branch it is already equal). -/
def saScrollStep (maxV maxS maxI : Nat) (s : SaScrollSt) (newLen : Nat) : SaScrollSt :=
  if s.len < maxV ∧ s.scrolls < maxS ∧ s.idle < maxI then
    { scrolls := s.scrolls + 1
      idle := if newLen = s.prev then s.idle + 1 else 0
      prev := newLen
      len := newLen }
  else s

/-- The `scrape_page` loop over a finite sequence of observed item
counts; the source constants are `max_scrolls = 15`, `max_idle = 5`. -/
def saRunScroll (maxV maxS maxI : Nat) (lens : List Nat) (init : SaScrollSt) : SaScrollSt :=
  lens.foldl (saScrollStep maxV maxS maxI) init

/-- The initial `scrape_page` loop state. -/
def saInitScroll : SaScrollSt := { scrolls := 0, idle := 0, prev := 0, len := 0 }

/-!
## Concrete inputs used by witnesses and counterexamples
-/

/-- An HTTP 503 response (rate-limited / server error). -/
def resp503 : HttpResp :=
  { status := 503, contentTypeJson := false, text := "Service Unavailable", parsed := Option.none }

/-- A 200 response whose JSON body does not parse. -/
def respBadJson : HttpResp :=
  { status := 200, contentTypeJson := true, text := "<html>", parsed := Option.none }

/-- A pandas row whose `id` cell is NaN (the batch has an `id` column
but this item lacks the field) while `pk` is present. -/
def rowC5 : Row := [("type", PyVal.str "Image"), ("id", PyVal.nan), ("pk", PyVal.str "123")]

/-- A raw row carrying only `shortCode`. -/
def cRowShort : Row := [("shortCode", PyVal.str "abc123")]

/-- The raw item of the normalizer-robustness test: `likesCount = NaN`,
no `caption`, identifier only as `shortCode = "abc123"`. -/
def rowC6 : Row := [("shortCode", PyVal.str "abc123"), ("likesCount", PyVal.nan)]

/-- The record `normalize_profile_data` produces for `rowC6`. -/
def igPostC6 : IgPost :=
  { post_id := "abc123", short_code := "abc123", caption := "", post_type := ""
    likes_count := 0, comments_count := 0, video_view_count := 0
    owner_username := "", hashtags := [], mentions := []
    hashtag_count := 0, mention_count := 0 }

/-- A raw TikTok video with likes 100, comments 20, shares 5, reposts 0,
views 1000. -/
def cVideo125 : TtRawItem :=
  { idVal := PyVal.str "v1"
    stats := [("diggCount", PyVal.int 100), ("commentCount", PyVal.int 20),
              ("shareCount", PyVal.int 5), ("collectCount", PyVal.int 0),
              ("playCount", PyVal.int 1000)]
    statsV2 := []
    authorStats := [] }

/-- The same counters with no author stats at all (follower count
unresolvable, denominator 0). -/
def cVideoNoF : TtRawItem :=
  { idVal := PyVal.str "v2"
    stats := [("diggCount", PyVal.int 100), ("commentCount", PyVal.int 20),
              ("shareCount", PyVal.int 5), ("collectCount", PyVal.int 0)]
    statsV2 := []
    authorStats := [] }

/-- A minimal raw search item with id `"a"` (all counters default 0). -/
def cItemA : TtRawItem := { idVal := PyVal.str "a", stats := [], statsV2 := [], authorStats := [] }

/-- A minimal raw search item with id `"b"`. -/
def cItemB : TtRawItem := { idVal := PyVal.str "b", stats := [], statsV2 := [], authorStats := [] }

/-- A captured response carrying exactly one item in `itemList`. -/
def mkItemResp (it : TtRawItem) (hasMore : Bool) : ApiResponse :=
  { sections := [], itemList := [Option.some it], has_more := hasMore }

/-- The video record `_extract_video_data` produces for `cItemA`. -/
def cVideoA : QueryVideo :=
  { video_id := PyVal.str "a", follower_count := 0, like_count := 0, comment_count := 0
    share_count := 0, repost_count := 0, play_count := 0, total_engagement := 0
    engagement_rate := 0 }

/-- Scroll-round arrivals where the very first captured page reports
`has_more = false` and another item still arrives two rounds later. -/
def cArrivals : List (List ApiResponse) :=
  [[mkItemResp cItemA false], [], [mkItemResp cItemB false], [], []]

/-!
## Helper lemmas
-/

lemma strTake_length_le (s : String) (n : Nat) : (strTake s n).length ≤ n := by
  show (s.data.take n).length ≤ n
  exact List.length_take_le n s.data

set_option maxRecDepth 4000 in
lemma normalizeProfilePost_eq_some {r : Row} {p : IgPost}
    (h : normalizeProfilePost r = Option.some p) :
    (resolvePostId r).truthy = true ∧ (resolvePostId r).isna = false ∧
      p.post_id = (resolvePostId r).pyStr ∧
      p.caption = strTake (safe_str (r.get "caption") "") 2000 ∧
      p.likes_count = safe_int (r.get "likesCount") := by
  simp only [normalizeProfilePost] at h
  rcases hpt : postTypeCheck r with _ | pt <;> rw [hpt] at h
  · cases h
  · cases hT : (resolvePostId r).truthy <;> rw [hT] at h
    · simp at h
    · cases hI : (resolvePostId r).isna <;> rw [hI] at h
      · simp only [Bool.not_true, Bool.or_false, Bool.false_eq_true, if_false] at h
        injection h with h
        subst h
        exact ⟨rfl, rfl, rfl, rfl, rfl⟩
      · simp at h

lemma roundHalfEven_intCast (n : ℤ) : roundHalfEven (n : ℚ) = n := by
  simp [roundHalfEven, Int.floor_intCast]

lemma pyRound2_125_1000 : pyRound2 ((125 : ℚ) / (1000 : ℚ) * 100) = 25 / 2 := by
  have h : ((125 : ℚ) / (1000 : ℚ) * 100) * 100 = ((1250 : ℤ) : ℚ) := by norm_num
  rw [pyRound2, h, roundHalfEven_intCast]
  norm_num

/-!
## Claim theorems
-/

/-- C3.  The claim says a comment-page fetch failing with a transient
error on every attempt is retried exactly `maxAttempts` times (5 in
tiktok_comment.py, 3 in tiktok_standalone.py) and the final error is
propagated unchanged.  On the code this fails: the `except` blocks
inside `fetch_page` / `_fetch_comment_page` swallow exactly the
exception types their own `@retry` decorators are configured to retry,
so against a transport that always fails with HTTP 503 (resp. a raised
network exception) the transport is called once and an empty success
page is returned; the third conjunct shows the retry combinator itself
would have made 5 attempts and reraised had the body let the error
escape. -/
theorem claim_C3_retry_bug :
    (withRetry tiktokCommentRetryable FETCH_PAGE_MAX_ATTEMPTS
        (fun _ => fetch_page (Except.ok resp503))
      = (Except.ok emptyCommentPage, 1)) ∧
    (withRetry saRetryable SA_FETCH_MAX_ATTEMPTS
        (fun _ => saFetchCommentPage (Option.some "qs")
          (Except.error (TransportError.requestException "connection reset")))
      = (Except.ok emptyCommentPage, 1)) ∧
    (withRetry tiktokCommentRetryable FETCH_PAGE_MAX_ATTEMPTS
        (fun _ => Except.error (TransportError.httpError 503))
      = (Except.error (TransportError.httpError 503), 5)) := by
  exact ⟨rfl, rfl, rfl⟩

/-- C4.  The claim says the transport-level page fetch never converts a
failure into an empty successful page.  On the code this fails:
`_safe_json` classifies an HTTP 503, a network exception and a
non-parsing body as transport errors (first conjunct), but `fetch_page`
and `_fetch_comment_page` catch them and hand the caller the success
value `{"comments": [], "has_more": 0}` — a success with an empty item
list. -/
theorem claim_C4_empty_page_bug :
    (safeJson resp503 = Except.error (TransportError.httpError 503)) ∧
    (fetch_page (Except.ok resp503) = Except.ok emptyCommentPage) ∧
    (fetch_page (Except.error (TransportError.requestException "connection reset"))
      = Except.ok emptyCommentPage) ∧
    (fetch_page (Except.ok respBadJson) = Except.ok emptyCommentPage) ∧
    (saFetchCommentPage (Option.some "qs") (Except.ok resp503) = Except.ok emptyCommentPage) ∧
    emptyCommentPage.comments = [] := by
  exact ⟨rfl, rfl, rfl, rfl, rfl, rfl⟩

/-- C10.  For every raw comment dict, the normalized row's
`parent_comment_id` is the raw `reply_id` exactly when that value is
present (truthy) and is not the sentinel string `"0"`, and `None`
otherwise; in particular `reply_id = "0"` is never emitted as a parent
identifier. -/
theorem claim_C10_reply_sentinel :
    ∀ c : Row,
      ((insertCommentRow c).parent_comment_id
        = if (c.get "reply_id").truthy ∧ c.get "reply_id" ≠ PyVal.str "0"
          then Option.some (c.get "reply_id") else Option.none) ∧
      (∀ v : PyVal, (insertCommentRow c).parent_comment_id = Option.some v ↔
        c.get "reply_id" = v ∧ v.truthy = true ∧ v ≠ PyVal.str "0") ∧
      (c.get "reply_id" = PyVal.str "0" →
        (insertCommentRow c).parent_comment_id = Option.none) := by
  intro c
  refine ⟨rfl, ?_, ?_⟩
  · intro v
    by_cases hc : (c.get "reply_id").truthy ∧ c.get "reply_id" ≠ PyVal.str "0"
    · simp only [insertCommentRow, if_pos hc, Option.some.injEq]
      constructor
      · rintro rfl
        exact ⟨rfl, hc.1, hc.2⟩
      · rintro ⟨rfl, -, -⟩
        rfl
    · simp only [insertCommentRow, if_neg hc]
      constructor
      · rintro ⟨⟩
      · rintro ⟨rfl, h1, h2⟩
        exact absurd ⟨h1, h2⟩ hc
  · intro h
    simp [insertCommentRow, h]

/-- Witness for C10 at a concrete comment with the sentinel
`reply_id = "0"`: no parent linkage is emitted. -/
theorem claim_C10_reply_sentinel_witness :
    (insertCommentRow [("cid", PyVal.str "7"), ("reply_id", PyVal.str "0")]).parent_comment_id
      = Option.none :=
  (claim_C10_reply_sentinel [("cid", PyVal.str "7"), ("reply_id", PyVal.str "0")]).2.2 (by decide)

/-- C6.  Normalization maps missing (`None`), NaN, Infinity and
unparsable numeric counters to 0 and missing string fields to the empty
string; captions are capped at 2000 characters and the stored hashtag
post excerpt at 500; and the concrete item with `likesCount = NaN`, no
caption and only `shortCode = "abc123"` normalizes to
`likes_count = 0`, `caption = ""`, id `"abc123"`. -/
theorem claim_C6_normalizer_defaults :
    (∀ v : PyVal, v.isna = true → safe_int v = 0) ∧
    (safe_int PyVal.inf = 0) ∧
    (∀ s : String, s.toInt? = Option.none → safe_int (PyVal.str s) = 0) ∧
    (∀ v : PyVal, v.isna = true → safe_str v "" = "") ∧
    (∀ (r : Row) (p : IgPost), normalizeProfilePost r = Option.some p →
      p.caption.length ≤ 2000) ∧
    (∀ r : Row, (hashtagPostExcerpt r).length ≤ 500) ∧
    normalizeProfilePost rowC6 = Option.some igPostC6 := by
  refine ⟨?_, rfl, ?_, ?_, ?_, ?_, by decide⟩
  · intro v hv
    cases v <;> simp_all [PyVal.isna, safe_int]
  · intro s hs
    simp [safe_int, hs]
  · intro v hv
    simp [safe_str, hv]
  · intro r p h
    rw [(normalizeProfilePost_eq_some h).2.2.2.1]
    exact strTake_length_le _ _
  · intro r
    exact strTake_length_le _ _

/-- Witness for C6's conditional conjuncts, applied at `rowC6`:
the emitted caption respects the 2000-character cap and NaN counters
map to 0. -/
theorem claim_C6_normalizer_defaults_witness :
    igPostC6.caption.length ≤ 2000 ∧ safe_int PyVal.nan = 0 :=
  ⟨claim_C6_normalizer_defaults.2.2.2.2.1 rowC6 igPostC6 (by decide),
   claim_C6_normalizer_defaults.1 PyVal.nan (by decide)⟩

/-- C7 (amended).  Hashtag and mention extraction scans the text with
the Unicode-aware token pattern and returns `list(set(matches))[:30]`:
the result has no exact-string duplicates, at most 30 entries, every
entry is one of the scanned matches, and when at most 30 distinct
matches exist every match is included.  (Deduplication is by exact
string — not case-insensitive — and the order is Python's unspecified
set order, so only order-independent facts are asserted.) -/
theorem claim_C7_extraction :
    (∀ text : String,
      (extractHashtags text).Nodup ∧
      (extractHashtags text).length ≤ 30 ∧
      (∀ x ∈ extractHashtags text, x ∈ scanTokens isHashtagChar '#' text.data) ∧
      ((scanTokens isHashtagChar '#' text.data).dedup.length ≤ 30 → text ≠ "" →
        ∀ x ∈ scanTokens isHashtagChar '#' text.data, x ∈ extractHashtags text)) ∧
    (∀ text : String,
      (extractMentions text).Nodup ∧
      (extractMentions text).length ≤ 30 ∧
      (∀ x ∈ extractMentions text, x ∈ scanTokens isMentionChar '@' text.data)) := by
  constructor
  · intro text
    by_cases h : text = ""
    · refine ⟨by simp [extractHashtags, h], by simp [extractHashtags, h],
        by simp [extractHashtags, h], ?_⟩
      intro _ h2
      exact absurd h h2
    · refine ⟨?_, ?_, ?_, ?_⟩
      · simp only [extractHashtags, if_neg h]
        exact (List.nodup_dedup _).sublist (List.take_sublist _ _)
      · simp only [extractHashtags, if_neg h]
        exact List.length_take_le _ _
      · intro x hx
        simp only [extractHashtags, if_neg h] at hx
        exact List.mem_dedup.mp (List.take_subset _ _ hx)
      · intro hlen _ x hx
        simp only [extractHashtags, if_neg h, List.take_of_length_le hlen]
        exact List.mem_dedup.mpr hx
  · intro text
    by_cases h : text = ""
    · exact ⟨by simp [extractMentions, h], by simp [extractMentions, h],
        by simp [extractMentions, h]⟩
    · refine ⟨?_, ?_, ?_⟩
      · simp only [extractMentions, if_neg h]
        exact (List.nodup_dedup _).sublist (List.take_sublist _ _)
      · simp only [extractMentions, if_neg h]
        exact List.length_take_le _ _
      · intro x hx
        simp only [extractMentions, if_neg h] at hx
        exact List.mem_dedup.mp (List.take_subset _ _ hx)

/-- Witness for C7 at a concrete text: the single match of `"#a"` is
included in the extraction. -/
theorem claim_C7_extraction_witness :
    "#a" ∈ extractHashtags "#a" :=
  (claim_C7_extraction.1 "#a").2.2.2 (by decide) (by decide) "#a" (by decide)

/-- Counterexample for C7 as stated: the extraction is not
case-insensitively deduplicated — `"#Tag"` and `"#tag"` differ only in
case yet both appear in the result. -/
theorem claim_C7_counterexample :
    extractHashtags "#Tag #tag" = ["#Tag", "#tag"] ∧
    strLower "#Tag" = strLower "#tag" ∧
    ¬ (extractHashtags "#Tag #tag").Pairwise (fun a b => strLower a ≠ strLower b) := by
  have he : extractHashtags "#Tag #tag" = ["#Tag", "#tag"] := by decide
  refine ⟨he, by decide, ?_⟩
  rw [he]
  intro hp
  exact (List.pairwise_cons.mp hp).1 "#tag" (by simp) (by decide)

/-- C5 (amended).  The canonical identifier is the first Python-truthy
value of `id`, `pk`, `shortCode`, `code` in that priority order; when no
field is truthy the item is skipped; when the chain's value is NaN (a
missing cell of the tabular batch is truthy, so it is selected rather
than skipped over) the item is also skipped; an emitted record's id is
`str` of the chain's value, and in the database normalizer a non-numeric
identifier string is fabricated as `abs(hash(s)) % 10**10` of that
weaker field. -/
theorem claim_C5_id_chain :
    (∀ (r : Row) (v : PyVal),
      List.find? PyVal.truthy [r.get "id", r.get "pk", r.get "shortCode", r.get "code"]
          = Option.some v →
      resolvePostId r = v) ∧
    (∀ r : Row,
      List.find? PyVal.truthy [r.get "id", r.get "pk", r.get "shortCode", r.get "code"]
          = Option.none →
      normalizeProfilePost r = Option.none) ∧
    (∀ (r : Row) (p : IgPost), normalizeProfilePost r = Option.some p →
      p.post_id = (resolvePostId r).pyStr ∧ (resolvePostId r).truthy = true ∧
        (resolvePostId r).isna = false) ∧
    (∀ r : Row, (resolvePostId r).isna = true → normalizeProfilePost r = Option.none) ∧
    (∀ (hashFn : String → Nat) (r : Row) (idx : Nat) (s : String),
      resolvePostId r = PyVal.str s → isDigitStr s = false →
      scraperPostId hashFn r idx = Int.ofNat (hashFn s % 10 ^ 10)) := by
  refine ⟨?_, ?_, ?_, ?_, ?_⟩
  · intro r v h
    by_cases h1 : (r.get "id").truthy
    · rw [List.find?_cons_of_pos _ h1] at h
      injection h with h
      subst h
      simp [resolvePostId, pyOr, h1]
    · rw [List.find?_cons_of_neg _ h1] at h
      by_cases h2 : (r.get "pk").truthy
      · rw [List.find?_cons_of_pos _ h2] at h
        injection h with h
        subst h
        simp [resolvePostId, pyOr, h1, h2]
      · rw [List.find?_cons_of_neg _ h2] at h
        by_cases h3 : (r.get "shortCode").truthy
        · rw [List.find?_cons_of_pos _ h3] at h
          injection h with h
          subst h
          simp [resolvePostId, pyOr, h1, h2, h3]
        · rw [List.find?_cons_of_neg _ h3] at h
          by_cases h4 : (r.get "code").truthy
          · rw [List.find?_cons_of_pos _ h4] at h
            injection h with h
            subst h
            simp [resolvePostId, pyOr, h1, h2, h3]
          · rw [List.find?_cons_of_neg _ h4] at h
            simp at h
  · intro r h
    have hall := List.find?_eq_none.mp h
    have h1 : ¬ ((r.get "id").truthy = true) := hall _ (by simp)
    have h2 : ¬ ((r.get "pk").truthy = true) := hall _ (by simp)
    have h3 : ¬ ((r.get "shortCode").truthy = true) := hall _ (by simp)
    have h4 : ¬ ((r.get "code").truthy = true) := hall _ (by simp)
    have hres : (resolvePostId r).truthy = false := by
      simp only [resolvePostId, pyOr, if_neg h1, if_neg h2, if_neg h3]
      exact Bool.eq_false_iff.mpr h4
    rcases hpt : postTypeCheck r with _ | pt
    · simp [normalizeProfilePost, hpt]
    · simp [normalizeProfilePost, hpt, hres]
  · intro r p h
    obtain ⟨hT, hI, hid, -, -⟩ := normalizeProfilePost_eq_some h
    exact ⟨hid, hT, hI⟩
  · intro r h
    rcases hpt : postTypeCheck r with _ | pt
    · simp [normalizeProfilePost, hpt]
    · simp [normalizeProfilePost, hpt, h]
  · intro hashFn r idx s hres hdig
    simp [scraperPostId, hres, hdig]

/-- Witness for C5 at a row carrying only a non-numeric `shortCode`:
the fabricated database id is the hash of that weaker field. -/
theorem claim_C5_id_chain_witness :
    scraperPostId String.length cRowShort 0 = Int.ofNat ("abc123".length % 10 ^ 10) :=
  claim_C5_id_chain.2.2.2.2 String.length cRowShort 0 "abc123" (by decide) (by decide)

/-- Counterexample for C5 as stated: in a row whose `id` cell is NaN
while `pk` is the non-empty string `"123"` and whose type is valid, the
spec-side resolution (first non-empty usable field) yields `"123"`, but
the code's truthy-chain selects the NaN and the `pd.isna` guard then
skips the item entirely — the fallback never reaches `pk` and no record
is emitted. -/
theorem claim_C5_counterexample :
    specFirstNonEmptyId rowC5 = Option.some (PyVal.str "123") ∧
    (rowC5.get "pk").truthy = true ∧
    resolvePostId rowC5 = PyVal.nan ∧
    normalizeProfilePost rowC5 = Option.none := by
  exact ⟨by decide, by decide, by decide, by decide⟩

/-- C1 (amended).  In every embedded normalizer `engagement_total` is
the sum likes + comments + shares + reposts of the record's own resolved
counters, and `engagement_rate` is that total divided by the
follower-or-view denominator times 100 rounded to two decimals whenever
the denominator is positive; when the denominator is 0 the query helper
and the standalone normalizer emit 0, but the page normalizer
(`tiktok_to_row`) emits `None` instead of 0.  The concrete instance
likes=100, comments=20, shares=5, reposts=0, views=1000 gives total 125
and rate 12.5. -/
theorem claim_C1_engagement :
    (∀ v : TtRawItem,
      (tiktok_to_row v).total_engagement
        = (tiktok_to_row v).like_count.getD 0 + (tiktok_to_row v).comment_count.getD 0
          + (tiktok_to_row v).share_count.getD 0 + (tiktok_to_row v).repost_count.getD 0) ∧
    (∀ (v : TtRawItem) (f : Int),
      (tiktok_to_row v).follower_count = Option.some f → 0 < f →
      (tiktok_to_row v).engagement_rate
        = Option.some (pyRound2 (((tiktok_to_row v).total_engagement : ℚ) / (f : ℚ) * 100))) ∧
    (∀ v : TtRawItem, (tiktok_to_row v).follower_count.getD 0 ≤ 0 →
      (tiktok_to_row v).engagement_rate = Option.none) ∧
    (∀ e f : Int, 0 < f →
      calculate_engagement_rate e f = pyRound2 ((e : ℚ) / (f : ℚ) * 100)) ∧
    (∀ e f : Int, f ≤ 0 → calculate_engagement_rate e f = 0) ∧
    (∀ v : TtRawItem,
      (saParseStats v).engagement_rate
        = pyRound2 (if 0 < (saParseStats v).play_count
            then (((saParseStats v).digg_count + (saParseStats v).comment_count
                  + (saParseStats v).share_count + (saParseStats v).repost_count : Int) : ℚ)
                  / (((saParseStats v).play_count : Int) : ℚ) * 100
            else 0)) ∧
    (calculate_engagement (Option.some 100) (Option.some 20) (Option.some 5) (Option.some 0)
      = 125) ∧
    ((saParseStats cVideo125).digg_count = 100 ∧ (saParseStats cVideo125).comment_count = 20 ∧
      (saParseStats cVideo125).share_count = 5 ∧ (saParseStats cVideo125).repost_count = 0 ∧
      (saParseStats cVideo125).play_count = 1000 ∧
      (saParseStats cVideo125).engagement_rate = 25 / 2) ∧
    calculate_engagement_rate 125 1000 = 25 / 2 := by
  have hsa : (saParseStats cVideo125).engagement_rate
      = pyRound2 ((125 : ℚ) / (1000 : ℚ) * 100) := rfl
  have hq : calculate_engagement_rate 125 1000 = pyRound2 ((125 : ℚ) / (1000 : ℚ) * 100) := by
    simp only [calculate_engagement_rate]
    rw [if_pos (by norm_num)]
    norm_num
  refine ⟨?_, ?_, ?_, ?_, ?_, ?_, by decide,
    ⟨by decide, by decide, by decide, by decide, by decide, hsa.trans pyRound2_125_1000⟩,
    hq.trans pyRound2_125_1000⟩
  · intro v
    rfl
  · intro v f hf hpos
    have hf2 : pageToInt (v.authorStats.get "followerCount") = Option.some f := hf
    simp only [tiktok_to_row, hf2]
    rw [if_pos ⟨by omega, hpos⟩]
  · intro v hle
    rcases hf : pageToInt (v.authorStats.get "followerCount") with _ | f
    · simp only [tiktok_to_row, hf]
    · have hf2 : (tiktok_to_row v).follower_count = Option.some f := hf
      rw [hf2] at hle
      simp only [Option.getD_some] at hle
      simp only [tiktok_to_row, hf]
      rw [if_neg]
      rintro ⟨-, hc⟩
      omega
  · intro e f hpos
    simp only [calculate_engagement_rate]
    rw [if_pos ⟨by omega, hpos⟩]
  · intro e f hle
    simp only [calculate_engagement_rate]
    rw [if_neg]
    rintro ⟨-, hc⟩
    omega
  · intro v
    rfl

/-- Witness for C1's conditional conjuncts: denominator 1000 with
engagement 125 gives the rounded rate, i.e. 12.5. -/
theorem claim_C1_engagement_witness :
    calculate_engagement_rate 125 1000 = pyRound2 ((125 : ℚ) / (1000 : ℚ) * 100) :=
  claim_C1_engagement.2.2.2.1 125 1000 (by decide)

/-- Counterexample for C1 as stated: with the same counters but an
unresolvable follower count the page normalizer's denominator is 0 and
its `engagement_rate` is `None`, not 0. -/
theorem claim_C1_counterexample :
    (tiktok_to_row cVideoNoF).total_engagement = 125 ∧
    (tiktok_to_row cVideoNoF).follower_count = Option.none ∧
    (tiktok_to_row cVideoNoF).engagement_rate = Option.none ∧
    (tiktok_to_row cVideoNoF).engagement_rate ≠ Option.some (0 : ℚ) := by
  exact ⟨by decide, by decide, by decide, by decide⟩

lemma runScroll_frozen (maxIdle : Nat) (obs : List (Nat × Bool)) :
    ∀ s : ScrollSt, maxIdle ≤ s.idle → runScroll maxIdle obs s = s := by
  induction obs with
  | nil => intro s _; rfl
  | cons o rest ih =>
    intro s hs
    have hstep : scrollStep maxIdle s o = s := by
      rw [scrollStep, if_pos (Or.inr hs)]
    show runScroll maxIdle rest (scrollStep maxIdle s o) = s
    rw [hstep]
    exact ih s hs

lemma runScroll_const (maxIdle h0 : Nat) :
    ∀ (n : Nat) (s : ScrollSt), s.hPrev = h0 → s.idle ≤ maxIdle →
    runScroll maxIdle (List.replicate n (h0, false)) s
      = { idle := min (s.idle + n) maxIdle, hPrev := h0,
          steps := s.steps + (min (s.idle + n) maxIdle - s.idle) } := by
  intro n
  induction n with
  | zero =>
    intro s h1 h2
    cases s with
    | mk i hp st =>
      simp only [List.replicate, runScroll, List.foldl_nil]
      simp only at h1 h2
      subst h1
      congr 1 <;> omega
  | succ n ih =>
    intro s h1 h2
    rcases Nat.lt_or_ge s.idle maxIdle with hlt | hge
    · have hstep : scrollStep maxIdle s (h0, false)
          = { idle := s.idle + 1, hPrev := h0, steps := s.steps + 1 } := by
        rw [scrollStep, if_neg]
        · simp [h1]
        · rintro (hc | hc)
          · simp at hc
          · omega
      calc runScroll maxIdle (List.replicate (n + 1) (h0, false)) s
          = runScroll maxIdle (List.replicate n (h0, false))
              { idle := s.idle + 1, hPrev := h0, steps := s.steps + 1 } := by
            rw [List.replicate_succ]
            show runScroll maxIdle (List.replicate n (h0, false))
              (scrollStep maxIdle s (h0, false)) = _
            rw [hstep]
        _ = { idle := min (s.idle + 1 + n) maxIdle, hPrev := h0,
              steps := s.steps + 1 + (min (s.idle + 1 + n) maxIdle - (s.idle + 1)) } :=
            ih _ rfl (show s.idle + 1 ≤ maxIdle by omega)
        _ = { idle := min (s.idle + (n + 1)) maxIdle, hPrev := h0,
              steps := s.steps + (min (s.idle + (n + 1)) maxIdle - s.idle) } := by
            congr 1 <;> omega
    · have heq : s.idle = maxIdle := le_antisymm h2 hge
      rw [runScroll_frozen _ _ _ hge]
      rw [show min (s.idle + (n + 1)) maxIdle = s.idle by omega]
      rw [show s.steps + (s.idle - s.idle) = s.steps by omega]
      obtain ⟨i, hp, st⟩ := s
      simp_all

lemma saRunScroll_frozen (maxV maxS maxI : Nat) (lens : List Nat) :
    ∀ s : SaScrollSt, maxI ≤ s.idle → saRunScroll maxV maxS maxI lens s = s := by
  induction lens with
  | nil => intro s _; rfl
  | cons c rest ih =>
    intro s hs
    have hstep : saScrollStep maxV maxS maxI s c = s := by
      rw [saScrollStep, if_neg]
      rintro ⟨-, -, hc⟩
      omega
    show saRunScroll maxV maxS maxI rest (saScrollStep maxV maxS maxI s c) = s
    rw [hstep]
    exact ih s hs

lemma saRunScroll_const (maxV maxS maxI c : Nat) (hc : c < maxV) :
    ∀ (n : Nat) (s : SaScrollSt), s.prev = c → s.len = c → s.idle ≤ maxI →
    s.scrolls + (maxI - s.idle) ≤ maxS →
    saRunScroll maxV maxS maxI (List.replicate n c) s
      = { scrolls := s.scrolls + (min (s.idle + n) maxI - s.idle),
          idle := min (s.idle + n) maxI, prev := c, len := c } := by
  intro n
  induction n with
  | zero =>
    intro s h1 h2 h3 h4
    cases s with
    | mk sc i pv ln =>
      simp only [List.replicate, saRunScroll, List.foldl_nil]
      simp only at h1 h2 h3 h4
      subst h1 h2
      congr 1 <;> omega
  | succ n ih =>
    intro s h1 h2 h3 h4
    rcases Nat.lt_or_ge s.idle maxI with hlt | hge
    · have hstep : saScrollStep maxV maxS maxI s c
          = { scrolls := s.scrolls + 1, idle := s.idle + 1, prev := c, len := c } := by
        rw [saScrollStep, if_pos ⟨by omega, by omega, hlt⟩]
        simp [h1]
      calc saRunScroll maxV maxS maxI (List.replicate (n + 1) c) s
          = saRunScroll maxV maxS maxI (List.replicate n c)
              { scrolls := s.scrolls + 1, idle := s.idle + 1, prev := c, len := c } := by
            rw [List.replicate_succ]
            show saRunScroll maxV maxS maxI (List.replicate n c)
              (saScrollStep maxV maxS maxI s c) = _
            rw [hstep]
        _ = { scrolls := s.scrolls + 1 + (min (s.idle + 1 + n) maxI - (s.idle + 1)),
              idle := min (s.idle + 1 + n) maxI, prev := c, len := c } :=
            ih _ rfl rfl (show s.idle + 1 ≤ maxI by omega)
              (show s.scrolls + 1 + (maxI - (s.idle + 1)) ≤ maxS by omega)
        _ = { scrolls := s.scrolls + (min (s.idle + (n + 1)) maxI - s.idle),
              idle := min (s.idle + (n + 1)) maxI, prev := c, len := c } := by
            congr 1 <;> omega
    · rw [saRunScroll_frozen _ _ _ _ _ hge]
      have heq : s.idle = maxI := le_antisymm h3 hge
      rw [show min (s.idle + (n + 1)) maxI = s.idle by omega]
      rw [show s.scrolls + (s.idle - s.idle) = s.scrolls by omega]
      obtain ⟨sc, i, pv, ln⟩ := s
      simp_all

/-- C9.  Both scroll loops keep an idle counter that is incremented when
the observed page height (profile scraper) or collected item count
(standalone scraper) is unchanged from the previous step and reset to 0
otherwise, and the loop stops as soon as the counter reaches the
configured idle maximum — even though no `hasMore=false` signal ever
arrives (every modelled done-signal is `false`): with an unchanging
height the profile loop executes exactly `MAX_IDLE_STEPS = 150`
iterations and the standalone loop exactly `max_idle = 5` scrolls, and a
state whose counter has reached the maximum is final. -/
theorem claim_C9_idle_scroll :
    (∀ (maxIdle : Nat) (s : ScrollSt) (h : Nat),
      s.idle < maxIdle → h ≠ s.hPrev → (scrollStep maxIdle s (h, false)).idle = 0) ∧
    (∀ (maxIdle : Nat) (s : ScrollSt),
      s.idle < maxIdle → (scrollStep maxIdle s (s.hPrev, false)).idle = s.idle + 1) ∧
    (∀ (maxIdle : Nat) (obs : List (Nat × Bool)) (s : ScrollSt),
      maxIdle ≤ s.idle → runScroll maxIdle obs s = s) ∧
    (∀ h0 n : Nat, MAX_IDLE_STEPS ≤ n →
      runScroll MAX_IDLE_STEPS (List.replicate n (h0, false)) (initScroll h0)
        = { idle := MAX_IDLE_STEPS, hPrev := h0, steps := MAX_IDLE_STEPS }) ∧
    (∀ (maxV n : Nat), 0 < maxV → 5 ≤ n →
      saRunScroll maxV 15 5 (List.replicate n 0) saInitScroll
        = { scrolls := 5, idle := 5, prev := 0, len := 0 }) := by
  refine ⟨?_, ?_, ?_, ?_, ?_⟩
  · intro maxIdle s h hlt hne
    rw [scrollStep, if_neg]
    · simp [hne]
    · rintro (hc | hc)
      · simp at hc
      · omega
  · intro maxIdle s hlt
    rw [scrollStep, if_neg]
    · simp
    · rintro (hc | hc)
      · simp at hc
      · omega
  · exact runScroll_frozen
  · intro h0 n hn
    calc runScroll MAX_IDLE_STEPS (List.replicate n (h0, false)) (initScroll h0)
        = { idle := min (0 + n) MAX_IDLE_STEPS, hPrev := h0,
            steps := 0 + (min (0 + n) MAX_IDLE_STEPS - 0) } :=
          runScroll_const MAX_IDLE_STEPS h0 n (initScroll h0) rfl
            (show (0 : Nat) ≤ MAX_IDLE_STEPS by omega)
      _ = { idle := MAX_IDLE_STEPS, hPrev := h0, steps := MAX_IDLE_STEPS } := by
          congr 1 <;> omega
  · intro maxV n hV hn
    calc saRunScroll maxV 15 5 (List.replicate n 0) saInitScroll
        = { scrolls := 0 + (min (0 + n) 5 - 0), idle := min (0 + n) 5,
            prev := 0, len := 0 } :=
          saRunScroll_const maxV 15 5 0 hV n saInitScroll rfl rfl
            (show (0 : Nat) ≤ 5 by omega) (show 0 + (5 - 0) ≤ 15 by omega)
      _ = { scrolls := 5, idle := 5, prev := 0, len := 0 } := by
          congr 1 <;> omega

/-- Witness for C9: the profile scroll loop with a constant height of 7
over 150 observations stops exactly after 150 idle steps, and the
standalone loop with a constant item count over 5 observations stops
after 5 scrolls. -/
theorem claim_C9_idle_scroll_witness :
    runScroll MAX_IDLE_STEPS (List.replicate 150 (7, false)) (initScroll 7)
        = { idle := MAX_IDLE_STEPS, hPrev := 7, steps := MAX_IDLE_STEPS } ∧
    saRunScroll 50 15 5 (List.replicate 5 0) saInitScroll
        = { scrolls := 5, idle := 5, prev := 0, len := 0 } :=
  ⟨claim_C9_idle_scroll.2.2.2.1 7 150 (by decide),
   claim_C9_idle_scroll.2.2.2.2 50 5 (by decide) (by decide)⟩

lemma scrapeCommentsGo_pages_le (t : Int → TtCommentData) :
    ∀ (n : Nat) (c : Int), (scrapeCommentsGo t n c).2 ≤ max 1 n := by
  intro n
  induction n using Nat.strong_induction_on with
  | _ n ih =>
    intro c
    match n with
    | 0 => simp [scrapeCommentsGo]
    | 1 => simp [scrapeCommentsGo]
    | m + 2 =>
      by_cases hm : (t c).has_more = 1
      · have hrec := ih (m + 1) (by omega) (t c).cursor
        show (if (t c).has_more = 1 then
            (((t c).comments.length + (scrapeCommentsGo t (m + 1) (t c).cursor).1,
              1 + (scrapeCommentsGo t (m + 1) (t c).cursor).2) : Nat × Nat)
          else ((t c).comments.length, 1)).2 ≤ max 1 (m + 2)
        rw [if_pos hm]
        simp only []
        omega
      · show (if (t c).has_more = 1 then
            (((t c).comments.length + (scrapeCommentsGo t (m + 1) (t c).cursor).1,
              1 + (scrapeCommentsGo t (m + 1) (t c).cursor).2) : Nat × Nat)
          else ((t c).comments.length, 1)).2 ≤ max 1 (m + 2)
        rw [if_neg hm]
        simp only []
        omega

lemma scrapeCommentsGo_stop (t : Int → TtCommentData) (n : Nat) (c : Int)
    (h : ¬ (t c).has_more = 1) : (scrapeCommentsGo t n c).2 = 1 := by
  match n with
  | 0 => rfl
  | 1 => rfl
  | m + 2 =>
    show (if (t c).has_more = 1 then
        (((t c).comments.length + (scrapeCommentsGo t (m + 1) (t c).cursor).1,
          1 + (scrapeCommentsGo t (m + 1) (t c).cursor).2) : Nat × Nat)
      else ((t c).comments.length, 1)).2 = 1
    rw [if_neg h]

lemma searchLoopGo_iters (maxV : Nat) :
    ∀ (l : List (List ApiResponse)) (soFar : List ApiResponse) (st : QState) (k : Nat),
      (searchLoopGo maxV l soFar st k).2 ≤ k + l.length := by
  intro l
  induction l with
  | nil => intro soFar st k; simp [searchLoopGo]
  | cons b rest ih =>
    intro soFar st k
    show (if maxV ≤ ((soFar ++ b).foldl processApiResponse st).videos.length then
        (((soFar ++ b).foldl processApiResponse st, k + 1) : QState × Nat)
      else searchLoopGo maxV rest (soFar ++ b) ((soFar ++ b).foldl processApiResponse st) (k + 1)).2
        ≤ k + (b :: rest).length
    by_cases hc : maxV ≤ ((soFar ++ b).foldl processApiResponse st).videos.length
    · rw [if_pos hc]
      simp
    · rw [if_neg hc]
      have := ih (soFar ++ b) ((soFar ++ b).foldl processApiResponse st) (k + 1)
      simp only [List.length_cons]
      omega

/-- C8 (amended).  The comment pagination loop
(`scrape_comments_for_video`) stops at the first page whose continuation
signal is not `has_more == 1` — in particular, `hasMore=false` on page 3
ends the loop after exactly 3 fetches regardless of the remaining
budget — and never fetches more than `max_pages` pages (for
`max_pages ≥ 1`).  The search scroll loop (`scrape_search_url`) ignores
the `has_more` signal: it is bounded only by its fixed number of scroll
rounds and by the `max_videos` cap, and the returned slice never
contains more than `max_videos` records. -/
theorem claim_C8_pagination :
    (∀ (t : Int → TtCommentData) (mp : Nat) (c : Int), 1 ≤ mp →
      (scrapeCommentsGo t mp c).2 ≤ mp) ∧
    (∀ (t : Int → TtCommentData) (mp : Nat) (c : Int),
      ¬ (t c).has_more = 1 → (scrapeCommentsGo t mp c).2 = 1) ∧
    (∀ (t : Int → TtCommentData) (mp : Nat), 3 ≤ mp →
      (t 0).has_more = 1 → (t (t 0).cursor).has_more = 1 →
      ¬ (t (t (t 0).cursor).cursor).has_more = 1 →
      (scrape_comments_for_video t mp).2 = 3) ∧
    (∀ (arrivals : List (List ApiResponse)) (maxV : Nat),
      (scrape_search_url arrivals maxV).1.length ≤ maxV ∧
      (scrape_search_url arrivals maxV).2 ≤ arrivals.length) := by
  refine ⟨?_, ?_, ?_, ?_⟩
  · intro t mp c h1
    have := scrapeCommentsGo_pages_le t mp c
    omega
  · intro t mp c h
    exact scrapeCommentsGo_stop t mp c h
  · intro t mp hmp h0 h1 h2
    obtain ⟨k, rfl⟩ : ∃ k, mp = k + 3 := ⟨mp - 3, by omega⟩
    show (scrapeCommentsGo t ((k + 1) + 2) 0).2 = 3
    rw [show (scrapeCommentsGo t ((k + 1) + 2) 0)
        = (if (t 0).has_more = 1 then
            (((t 0).comments.length + (scrapeCommentsGo t (k + 2) (t 0).cursor).1,
              1 + (scrapeCommentsGo t (k + 2) (t 0).cursor).2) : Nat × Nat)
          else ((t 0).comments.length, 1)) from rfl]
    rw [if_pos h0]
    have hsecond : (scrapeCommentsGo t (k + 2) (t 0).cursor).2
        = 1 + (scrapeCommentsGo t (k + 1) (t (t 0).cursor).cursor).2 := by
      rw [show (scrapeCommentsGo t (k + 2) (t 0).cursor)
          = (if (t (t 0).cursor).has_more = 1 then
              (((t (t 0).cursor).comments.length
                  + (scrapeCommentsGo t (k + 1) (t (t 0).cursor).cursor).1,
                1 + (scrapeCommentsGo t (k + 1) (t (t 0).cursor).cursor).2) : Nat × Nat)
            else ((t (t 0).cursor).comments.length, 1)) from rfl]
      rw [if_pos h1]
    have hthird : (scrapeCommentsGo t (k + 1) (t (t 0).cursor).cursor).2 = 1 := by
      match k with
      | 0 => rfl
      | k' + 1 => exact scrapeCommentsGo_stop t (k' + 2) _ h2
    simp only []
    omega
  · intro arrivals maxV
    constructor
    · exact List.length_take_le _ _
    · have h := searchLoopGo_iters maxV arrivals [] { processed := [], videos := [] } 0
      show (searchLoopGo maxV arrivals [] { processed := [], videos := [] } 0).2
        ≤ arrivals.length
      omega

/-- Witness for C8's conditional conjuncts: a transport that always
returns the empty page is fetched exactly once under a budget of 5
(its `has_more` is 0), which is within the 5-page bound. -/
theorem claim_C8_pagination_witness :
    (scrapeCommentsGo (fun _ => emptyCommentPage) 5 0).2 = 1 ∧
    (scrapeCommentsGo (fun _ => emptyCommentPage) 5 0).2 ≤ 5 :=
  ⟨claim_C8_pagination.2.1 (fun _ => emptyCommentPage) 5 0 (by decide),
   claim_C8_pagination.1 (fun _ => emptyCommentPage) 5 0 (by decide)⟩

/-- Counterexample for C8 as stated: in the search scroll loop a first
page reporting `has_more = false` does not end the loop — all 5 scroll
rounds still run, and an item arriving on a later page (id `"b"`) still
shows up in the returned sequence. -/
theorem claim_C8_counterexample :
    (cArrivals.headD []).all (fun r => r.has_more = false) = true ∧
    (scrape_search_url cArrivals 10).2 = 5 ∧
    ((scrape_search_url cArrivals 10).1.map QueryVideo.video_id)
      = [PyVal.str "a", PyVal.str "b"] := by
  exact ⟨by decide, by decide, by decide⟩

lemma extractVideoData_id {it : TtRawItem} {v : QueryVideo}
    (h : extractVideoData it = Option.some v) : v.video_id = it.idVal := by
  unfold extractVideoData at h
  split at h
  · injection h with h
    subst h
    rfl
  · cases h

lemma collectNew_spec :
    ∀ (l : List (Option TtRawItem)) (seen : List PyVal),
    ((collectNew l seen).1.map TtRawItem.idVal).Nodup ∧
    (∀ it ∈ (collectNew l seen).1, it.idVal ∉ seen) ∧
    (∀ x ∈ seen, x ∈ (collectNew l seen).2) ∧
    (∀ it ∈ (collectNew l seen).1, it.idVal ∈ (collectNew l seen).2) := by
  intro l
  induction l with
  | nil =>
    intro seen
    refine ⟨by simp [collectNew], by simp [collectNew], ?_, by simp [collectNew]⟩
    intro x hx
    simpa [collectNew] using hx
  | cons o rest ih =>
    intro seen
    match o with
    | Option.none =>
      simpa only [collectNew] using ih seen
    | Option.some it =>
      by_cases hmem : it.idVal ∈ seen
      · simp only [collectNew, if_pos hmem]
        exact ih seen
      · obtain ⟨ihN, ihB, ihC, ihD⟩ := ih (it.idVal :: seen)
        simp only [collectNew, if_neg hmem]
        refine ⟨?_, ?_, ?_, ?_⟩
        · simp only [List.map_cons, List.nodup_cons]
          constructor
          · intro hmm
            obtain ⟨it2, h2, hEq⟩ := List.mem_map.mp hmm
            exact (ihB it2 h2) (hEq ▸ List.mem_cons_self it.idVal seen)
          · exact ihN
        · intro it2 h2
          rcases List.mem_cons.mp h2 with rfl | h2
          · exact hmem
          · intro hin
            exact (ihB it2 h2) (List.mem_cons_of_mem _ hin)
        · intro x hx
          exact ihC x (List.mem_cons_of_mem _ hx)
        · intro it2 h2
          rcases List.mem_cons.mp h2 with rfl | h2
          · exact ihC _ (List.mem_cons_self _ _)
          · exact ihD it2 h2

lemma filterMap_extract_ids_sublist :
    ∀ l : List TtRawItem,
      ((l.filterMap extractVideoData).map QueryVideo.video_id).Sublist
        (l.map TtRawItem.idVal) := by
  intro l
  induction l with
  | nil => simp
  | cons it rest ih =>
    rcases hx : extractVideoData it with _ | v
    · simp only [List.filterMap_cons, hx, List.map_cons]
      exact ih.cons _
    · simp only [List.filterMap_cons, hx, List.map_cons]
      rw [extractVideoData_id hx]
      exact ih.cons₂ _

lemma processApiResponse_inv {st : QState} (r : ApiResponse)
    (h1 : (st.videos.map QueryVideo.video_id).Nodup)
    (h2 : ∀ v ∈ st.videos, v.video_id ∈ st.processed) :
    ((processApiResponse st r).videos.map QueryVideo.video_id).Nodup ∧
      ∀ v ∈ (processApiResponse st r).videos,
        v.video_id ∈ (processApiResponse st r).processed := by
  obtain ⟨cN, cB, cC, cD⟩ := collectNew_spec (responseItems r) st.processed
  constructor
  · show ((st.videos ++
        (collectNew (responseItems r) st.processed).1.filterMap extractVideoData).map
          QueryVideo.video_id).Nodup
    rw [List.map_append]
    refine List.Nodup.append h1 ?_ ?_
    · exact cN.sublist (filterMap_extract_ids_sublist _)
    · intro a ha hb
      obtain ⟨v, hv, hva⟩ := List.mem_map.mp ha
      obtain ⟨w, hw, hwa⟩ := List.mem_map.mp hb
      obtain ⟨it2, hit2, hx2⟩ := List.mem_filterMap.mp hw
      have : it2.idVal = a := by rw [← hwa, extractVideoData_id hx2]
      exact (cB it2 hit2) (this ▸ (hva ▸ h2 v hv))
  · intro v hv
    show v.video_id ∈ (collectNew (responseItems r) st.processed).2
    rcases List.mem_append.mp hv with hv | hv
    · exact cC _ (h2 v hv)
    · obtain ⟨it2, hit2, hx2⟩ := List.mem_filterMap.mp hv
      rw [extractVideoData_id hx2]
      exact cD it2 hit2

lemma harvest_inv :
    ∀ (rs : List ApiResponse) (st : QState),
    (st.videos.map QueryVideo.video_id).Nodup →
    (∀ v ∈ st.videos, v.video_id ∈ st.processed) →
    ((rs.foldl processApiResponse st).videos.map QueryVideo.video_id).Nodup := by
  intro rs
  induction rs with
  | nil => intro st hst _; simpa using hst
  | cons r rest ih =>
    intro st h1 h2
    obtain ⟨h1n, h2n⟩ := processApiResponse_inv r h1 h2
    simpa only [List.foldl_cons] using ih _ h1n h2n

/-- C2.  Within one harvest run every emitted record's identifier is
unique: for every sequence of captured pages the accumulated
`videos_data` has pairwise-distinct `video_id`s, and feeding the very
same raw item on two consecutive page fetches yields exactly one record
for it (the second occurrence is rejected by the `processed_ids`
seen-set check performed before anything is emitted). -/
theorem claim_C2_dedup :
    (∀ rs : List ApiResponse,
      ((harvestResponses rs).videos.map QueryVideo.video_id).Nodup) ∧
    (∀ (it : TtRawItem) (v : QueryVideo), extractVideoData it = Option.some v →
      (harvestResponses [mkItemResp it true, mkItemResp it true]).videos = [v]) := by
  constructor
  · intro rs
    exact harvest_inv rs { processed := [], videos := [] } (by simp) (by simp)
  · intro it v h
    simp [harvestResponses, processApiResponse, responseItems, mkItemResp, sectionEntry,
      collectNew, h]

/-- Witness for C2: the concrete item with id `"a"` fed on two
consecutive pages produces exactly the one record `cVideoA`. -/
theorem claim_C2_dedup_witness :
    (harvestResponses [mkItemResp cItemA true, mkItemResp cItemA true]).videos = [cVideoA] :=
  claim_C2_dedup.2 cItemA cVideoA (by decide)

end SeoAgency
